import Mathlib

/-!
Verification of the agentic-rag e-commerce RAG pipeline.

The Python sources under `src/` are shallowly embedded as executable Lean
definitions and the design-document claims about them are settled as theorems.

Modelling conventions:
* Python `str` is Lean `String`; `s.lower()` is `strLower` (ASCII lowering, all
  keywords and category names in the source are ASCII); `needle in hay` is
  `strContains hay needle`.
* Python `float` currency values (`Amount`, `Profit`) are modelled as `ℚ`.
  Python's fixed-point rendering `f"{x:.2f}"` is modelled by `fmtMoney`, which
  rounds to cents (half away from zero on the magnitude); the binary-float
  tie-breaking of CPython is not modelled, it is irrelevant to every claim.
* Python dicts with optional keys (search results, hits) are structures whose
  fields are `Option`-valued; `d.get(k)` is the field itself, `d.get(k, v)` is
  `field.getD v`, and `d[k]` on a possibly missing key is a `match` whose
  `none` branch raises.
* The Meilisearch client and the OpenRouter LLM are external collaborators;
  they are modelled as oracle functions returning `Except Unit _` (`.error`
  models a raised exception).  Wall-clock reads (`time.time()`) are modelled
  by an oracle `clock : ℕ → ℤ` indexed by call order.
* Calls issued to the search engine are threaded through the search pipeline
  as an explicit trace (`List SearchCall`), so that claims about which
  searches are issued are statable.
-/

/-! ### String utilities (Python `str.lower`, `in`, `str.title`) -/

/-- ASCII lowering of a string, modelling Python `str.lower()` on the ASCII
strings this program manipulates. -/
def strLower (s : String) : String := ⟨s.data.map Char.toLower⟩

/-- Here `strContains hay needle` models Python `needle in hay` (substring test). -/
def strContains (hay needle : String) : Bool := decide (needle.data <:+: hay.data)

/-- One step of Python `str.title()`: a letter is uppercased when the previous
character was not a letter, lowercased otherwise (ASCII). -/
def titleAux : Bool → List Char → List Char
  | _, [] => []
  | prevAlpha, c :: cs =>
    (if c.isAlpha then (if prevAlpha then c.toLower else c.toUpper) else c) ::
      titleAux c.isAlpha cs

/-- Python `str.title()` (ASCII), used for `category.title()`. -/
def titleStr (s : String) : String := ⟨titleAux false s.data⟩

/-! ### Fixed-point currency rendering (Python `f"{x:.2f}"`) -/

/-- Two-digit zero-padded rendering of a number below 100. -/
def natPad2 (n : ℕ) : String := if n < 10 then "0" ++ toString n else toString n

/-- Renders a non-negative number of cents with two decimal places. -/
def fmtCentsNonneg (n : ℕ) : String := toString (n / 100) ++ "." ++ natPad2 (n % 100)

/-- Cents value of a non-negative rational, rounding halves up. -/
def roundCentsNonneg (q : ℚ) : ℤ := (200 * q.num + (q.den : ℤ)) / (2 * (q.den : ℤ))

/-- Models Python `f"{x:.2f}"`: sign, integer part, dot, two fractional digits. -/
def fmtMoney (q : ℚ) : String :=
  if q < 0 then "-" ++ fmtCentsNonneg (roundCentsNonneg (-q)).toNat
  else fmtCentsNonneg (roundCentsNonneg q).toNat

/-! ### Document Builder (`src/data_loader.py`) -/

/-- One raw order record: the columns of the input CSV consumed by
`EcommerceDataLoader.process_data` (`data_loader.py`). -/
structure OrderRow where
  order_id : String
  amount : ℚ
  profit : ℚ
  quantity : ℤ
  category : String
  sub_category : String
deriving Repr, DecidableEq

/-- Embeds `EcommerceDataLoader._get_consumer_price_description`. -/
def getConsumerPriceDescription (amount : ℚ) : String :=
  if amount < 100 then "affordable"
  else if amount < 500 then "mid-range"
  else "premium"

/-- Embeds `EcommerceDataLoader._get_consumer_quality_description`. -/
def getConsumerQualityDescription (amount : ℚ) : String :=
  if amount < 100 then "good value"
  else if amount < 500 then "high quality"
  else "luxury"

/-- Embeds `EcommerceDataLoader._get_consumer_availability_description`. -/
def getConsumerAvailabilityDescription (quantity : ℤ) : String :=
  if quantity ≤ 2 then "Limited stock available"
  else if quantity ≤ 5 then "Moderate availability"
  else "Good stock availability"

/-- Embeds `EcommerceDataLoader._get_amount_range`. -/
def getAmountRange (amount : ℚ) : String :=
  if amount < 100 then "low"
  else if amount < 500 then "medium"
  else "high"

/-- Embeds `EcommerceDataLoader._get_profit_range`. -/
def getProfitRange (profit : ℚ) : String :=
  if profit < 0 then "loss"
  else if profit < 50 then "low_profit"
  else "high_profit"

/-- Embeds `EcommerceDataLoader._get_quantity_range`. -/
def getQuantityRange (quantity : ℤ) : String :=
  if quantity ≤ 2 then "small"
  else if quantity ≤ 5 then "medium"
  else "large"

/-- Embeds `EcommerceDataLoader._get_profit_description`. -/
def getProfitDescription (profit : ℚ) : String :=
  if 0 < profit then "positive profitability"
  else if profit < 0 then "negative profitability"
  else "break-even"

/-- Embeds `EcommerceDataLoader._create_consumer_friendly_content`. -/
def createConsumerFriendlyContent (row : OrderRow) : String :=
  "Product: " ++ row.sub_category ++ " from " ++ row.category ++
    " category. Price: $" ++ fmtMoney row.amount ++ ", Quantity available: " ++
    toString row.quantity ++ ". This is a " ++
    getConsumerPriceDescription row.amount ++ " item with " ++
    getConsumerQualityDescription row.amount ++ " quality. " ++
    getConsumerAvailabilityDescription row.quantity ++ "."

/-- Embeds `EcommerceDataLoader._create_business_content`. -/
def createBusinessContent (row : OrderRow) : String :=
  "Product: " ++ row.sub_category ++ " from " ++ row.category ++
    " category. Price: $" ++ fmtMoney row.amount ++ ", Profit: $" ++
    fmtMoney row.profit ++ ", Quantity available: " ++ toString row.quantity ++
    ". This is a " ++ getAmountRange row.amount ++ "-priced item with " ++
    getProfitDescription row.profit ++ "."

/-! ### Intent Classifier (`_detect_personal_context`)

The detector exists twice in the source with the same algorithm: in
`rag_system.py` (used by the query pipeline) and in `openrouter_client.py`
(with a shorter business-keyword list; only used when `create_rag_prompt` is
called without an explicit intent, which the pipeline never does). -/

/-- The `personal_keywords` list, identical at both call sites. -/
def personalKeywords : List String :=
  ["shopping", "buy", "buying", "purchase", "purchasing",
   "gift", "gifts", "present", "presents", "souvenir", "souvenirs",
   "vacation", "travel", "trip", "holiday", "goa", "beach",
   "personal", "family", "friends", "myself", "me",
   "recommend", "recommendation", "suggest", "suggestion",
   "what to buy", "what should i buy", "what can i take",
   "need", "want", "looking for", "searching for"]

/-- The `business_keywords` list of `rag_system._detect_personal_context`. -/
def businessKeywords : List String :=
  ["business", "profit", "profitability", "revenue", "loss",
   "margin", "margins", "analysis", "analytics", "performance",
   "inventory", "stock", "quarterly", "annual", "strategy",
   "management", "optimization", "efficiency", "roi",
   "highest", "best", "top", "most profitable", "profit margins",
   "financial", "commercial", "enterprise", "corporate"]

/-- The `business_keywords` list of
`openrouter_client.OpenRouterClient._detect_personal_context`. -/
def businessKeywordsClient : List String :=
  ["business", "profit", "profitability", "revenue", "loss",
   "margin", "margins", "analysis", "analytics", "performance",
   "inventory", "stock", "quarterly", "annual", "strategy",
   "management", "optimization", "efficiency", "roi"]

/-- Embeds `sum(1 for keyword in keywords if keyword in query_lower)`. -/
def countKeywordMatches (keywords : List String) (queryLower : String) : ℕ :=
  (keywords.filter (fun kw => strContains queryLower kw)).length

/-- Embeds `AgenticRAGSystem._detect_personal_context` (`rag_system.py`):
`True` means PERSONAL, `False` means BUSINESS. -/
def detectPersonalContext (query : String) : Bool :=
  let queryLower := strLower query
  let personalMatches := countKeywordMatches personalKeywords queryLower
  let businessMatches := countKeywordMatches businessKeywords queryLower
  if businessMatches > personalMatches ∧ businessMatches > 0 then false else true

/-- Embeds `OpenRouterClient._detect_personal_context` (`openrouter_client.py`). -/
def detectPersonalContextClient (query : String) : Bool :=
  let queryLower := strLower query
  let personalMatches := countKeywordMatches personalKeywords queryLower
  let businessMatches := countKeywordMatches businessKeywordsClient queryLower
  if businessMatches > personalMatches ∧ businessMatches > 0 then false else true

/-- The intent label as exposed by the pipeline
(`"PERSONAL" if is_personal_context else "BUSINESS"`, `rag_system.query`). -/
def classifyIntent (query : String) : String :=
  if detectPersonalContext query then "PERSONAL" else "BUSINESS"

/-- The label induced by the `openrouter_client.py` copy of the detector. -/
def classifyIntentClient (query : String) : String :=
  if detectPersonalContextClient query then "PERSONAL" else "BUSINESS"

/-! ### Prompt Assembler (`src/prompts.py`, `OpenRouterClient.create_rag_prompt`) -/

/-- Embeds `E_COMMERCE_SYSTEM_PROMPT` (`prompts.py`), verbatim. -/
def eCommerceSystemPrompt : String :=
  "You are an intelligent e-commerce assistant that automatically adapts to user context. Your role is to provide helpful, accurate, and contextually appropriate responses based on the provided product data.\n\nCORE BEHAVIOR:\n- AUTOMATICALLY detect if the user is asking for personal shopping advice OR business analysis\n- NEVER mix personal and business language in the same response\n- ALWAYS use the appropriate content format based on detected context\n\nCONTEXT DETECTION RULES:\n\nPERSONAL CONTEXT (automatically detected when user mentions):\n- Shopping, buying, purchasing, shopping for\n- Gifts, presents, souvenirs\n- Vacation, travel, trip, holiday\n- Personal use, family, friends\n- What to buy, recommendations, suggestions\n- Personal needs, preferences, style\n- Any question that sounds like a customer asking for shopping advice\n\nBUSINESS CONTEXT (automatically detected when user mentions):\n- Business analysis, profitability analysis\n- Revenue, profit margins, loss margins\n- Inventory management, stock analysis\n- Quarterly review, business performance\n- Business strategy, business decisions\n- Any question that sounds like a business analyst or manager\n\nRESPONSE FORMATS:\n\nFor PERSONAL CONTEXT:\n- Use ONLY the consumer-friendly content (no profit/loss data)\n- Focus on product features, benefits, quality, price, and value\n- Use friendly, helpful customer service language\n- Recommend products based on user's needs and preferences\n- NEVER mention business metrics, profitability, or internal business data\n\nFor BUSINESS CONTEXT:\n- Use ONLY the business content (with profit/loss data)\n- Include business metrics, profit margins, cost analysis\n- Use professional business language\n- Focus on business implications and strategic insights\n- Provide data-driven business recommendations\n\nCRITICAL RULES:\n1. ALWAYS detect context first before responding\n2. NEVER show business metrics to personal shoppers\n3. NEVER show personal shopping language to business users\n4. Use the appropriate content format automatically\n5. Be genuinely helpful while maintaining strict context separation\n\nYour goal is to provide the most relevant and helpful response based on the user's actual needs."

/-- The static tail of `RAG_USER_PROMPT_TEMPLATE` after the `query`
placeholder (`prompts.py`), verbatim. -/
def ragUserPromptTail : String :=
  "\n\nCONTEXT DETECTION INSTRUCTIONS:\n1. FIRST, analyze the user's question to determine if this is PERSONAL or BUSINESS context\n2. Use ONLY the appropriate content format based on detected context\n3. NEVER mix contexts - stick to one format throughout the response\n\nRESPONSE REQUIREMENTS:\n\nFor PERSONAL CONTEXT (shopping, gifts, vacation, personal use):\n- Use ONLY consumer-friendly product descriptions\n- Focus on product features, benefits, quality, price, and value\n- Provide shopping recommendations based on user's needs\n- Use friendly, helpful customer service language\n- NEVER mention business metrics, profitability, or internal data\n\nFor BUSINESS CONTEXT (business analysis, profitability, revenue):\n- Use business content with profit/loss data\n- Include relevant business metrics and analysis\n- Use professional business language\n- Focus on business implications and strategic insights\n\nRESPONSE STRUCTURE:\n1. Direct answer to the user's question\n2. Relevant product recommendations with appropriate context\n3. Practical insights and actionable advice\n4. Clear, well-organized information\n\nRemember:\n- Detect context automatically and respond appropriately\n- Use only the content format that matches the user's context\n- Be genuinely helpful while maintaining strict context separation\n- Never expose inappropriate information for the detected context"

/-- Embeds `RAG_USER_PROMPT_TEMPLATE.format(context_text=..., query=...)`. -/
def ragUserPrompt (contextTextArg query : String) : String :=
  "Product Data:\n" ++ contextTextArg ++ "\n\nUser Question: " ++ query ++ ragUserPromptTail

/-- A chat message (`{"role": ..., "content": ...}`). -/
structure Message where
  role : String
  content : String
deriving Repr, DecidableEq

/-- An indexed document / search hit as the query pipeline consumes it: a dict
whose keys may be absent (`doc.get(...)` everywhere in the source).  Fields the
embedded code never reads are omitted. -/
structure Doc where
  id : Option String := none
  order_id : Option String := none
  category : Option String := none
  sub_category : Option String := none
  amount : Option ℚ := none
  profit : Option ℚ := none
  content : Option String := none
  business_content : Option String := none
deriving Repr, DecidableEq

/-- The per-hit context text chosen by intent, computed identically in
`create_rag_prompt` (`openrouter_client.py` lines 84-87) and in the sources
loop of `query` (`rag_system.py` lines 243-246):
`doc.get('content', '')` for personal, else
`doc.get('business_content', doc.get('content', ''))`. -/
def pickContent (isPersonal : Bool) (doc : Doc) : String :=
  if isPersonal then doc.content.getD ""
  else doc.business_content.getD (doc.content.getD "")

/-- The `context_text` accumulation loop of `create_rag_prompt`
(`for i, doc in enumerate(context, 1): context_text += f"{i}. {content}\n"`). -/
def contextTextLoop (isPersonal : Bool) (i : ℕ) : List Doc → String
  | [] => ""
  | d :: ds =>
    toString i ++ ". " ++ pickContent isPersonal d ++ "\n" ++
      contextTextLoop isPersonal (i + 1) ds

/-- The full `context_text` built by `create_rag_prompt`. -/
def contextText (isPersonal : Bool) (docs : List Doc) : String :=
  contextTextLoop isPersonal 1 docs

/-- Embeds `OpenRouterClient.create_rag_prompt` with an explicit intent flag (the
query pipeline always passes one; the `None`-default re-detection branch is
therefore dead on the pipeline path and not modelled). -/
def createRagPrompt (query : String) (context : List Doc) (isPersonal : Bool) :
    List Message :=
  [⟨"system", eCommerceSystemPrompt⟩,
   ⟨"user", ragUserPrompt (contextText isPersonal context) query⟩]

/-! ### Search Gateway shape and Retrieval Orchestrator (`AgenticRAGSystem._smart_search`) -/

/-- A search-engine response dict; any of the keys may be absent. -/
structure SearchResult where
  hits : Option (List Doc) := none
  estimatedTotalHits : Option ℤ := none
  processingTimeMs : Option ℤ := none
deriving Repr, DecidableEq

/-- One call issued to `MeilisearchClient.search(query, limit, filters)`. -/
structure SearchCall where
  q : String
  limit : ℕ
  filter : Option String
deriving Repr, DecidableEq

/-- The external search engine: may return a result dict or raise. -/
abbrev Oracle := String → ℕ → Option String → Except Unit SearchResult

/-- Issue one engine call, recording it in the call trace; a raise aborts the
surrounding computation (Python exception propagation). -/
def callSearch (o : Oracle) (q : String) (limit : ℕ) (filter : Option String)
    (tr : List SearchCall) : Except Unit (SearchResult × List SearchCall) :=
  match o q limit filter with
  | .ok r => .ok (r, tr ++ [⟨q, limit, filter⟩])
  | .error e => .error e

/-- The `category_mapping` dict of `_smart_search` (`rag_system.py` lines
43-47), in insertion order. -/
def categoryMapping : List (String × List String) :=
  [("clothing", ["clothing", "clothes", "dress", "shirt", "trousers", "saree",
                 "stole", "kurti", "hankerchief", "t-shirt", "shirt", "gift",
                 "family", "personal"]),
   ("furniture", ["furniture", "chair", "chairs", "bookcase", "bookcases",
                  "table", "desk", "home office", "office", "home"]),
   ("electronics", ["electronics", "electronic", "phone", "phones", "printer",
                    "printers", "game", "games", "affordable electronics",
                    "tech", "gadget"])]

/-- The fallback category list used when no keyword matches. -/
def allCategoryNames : List String := ["clothing", "furniture", "electronics"]

/-- The `matching_categories` loop: categories whose keyword list has a member
occurring in the lower-cased query. -/
def matchingCategories (queryLower : String) : List String :=
  (categoryMapping.filter (fun ck => ck.2.any (fun kw => strContains queryLower kw))).map
    (fun ck => ck.1)

/-- Embeds `f"category = '{category.title()}'"`. -/
def catFilterStr (category : String) : String :=
  "category = '" ++ titleStr category ++ "'"

/-- The per-category search loop of stage 2 (`rag_system.py` lines 60-73):
search the query with the category filter at twice the limit; on an empty
result retry with the category name as query; accumulate all hits in order. -/
def stage2Loop (o : Oracle) (query : String) (maxResults : ℕ) :
    List String → List SearchCall → Except Unit (List Doc × List SearchCall)
  | [], tr => .ok ([], tr)
  | c :: cs, tr =>
    match callSearch o query (maxResults * 2) (some (catFilterStr c)) tr with
    | .error e => .error e
    | .ok (cr, tr1) =>
      if (cr.hits.getD []).isEmpty then
        match callSearch o c maxResults (some (catFilterStr c)) tr1 with
        | .error e => .error e
        | .ok (br, tr2) =>
          match stage2Loop o query maxResults cs tr2 with
          | .error e => .error e
          | .ok (rest, tr3) =>
            .ok ((if (br.hits.getD []).isEmpty then [] else br.hits.getD []) ++ rest, tr3)
      else
        match stage2Loop o query maxResults cs tr1 with
        | .error e => .error e
        | .ok (rest, tr2) => .ok (cr.hits.getD [] ++ rest, tr2)

/-- The dedup-and-truncate loop of stage 2 (`rag_system.py` lines 75-82):
keep each first-seen id, stop as soon as `max_results` hits are kept.
`seen` and `count` mirror `seen_ids` and `len(unique_results)`. -/
def dedupLoop (maxResults : ℕ) (seen : List (Option String)) (count : ℕ) :
    List Doc → List Doc
  | [] => []
  | h :: rest =>
    if h.id ∈ seen then dedupLoop maxResults seen count rest
    else if maxResults ≤ count + 1 then [h]
    else h :: dedupLoop maxResults (h.id :: seen) (count + 1) rest

/-- Embeds `unique_results` as computed from `all_category_results`. -/
def dedupHits (maxResults : ℕ) (hits : List Doc) : List Doc :=
  dedupLoop maxResults [] 0 hits

/-- Stage 2 of `_smart_search` (`rag_system.py` lines 40-88): runs when stage 1
produced no or too few hits; replaces the hit list with the deduplicated
category-search accumulation when that is non-empty. -/
def stage2 (o : Oracle) (query queryLower : String) (maxResults : ℕ)
    (results : SearchResult) (tr : List SearchCall) :
    Except Unit (SearchResult × List SearchCall) :=
  if (results.hits.getD []).isEmpty ∨ (results.hits.getD []).length < maxResults then
    let matching := matchingCategories queryLower
    let cats := if matching.isEmpty then allCategoryNames else matching
    match stage2Loop o query maxResults cats tr with
    | .error e => .error e
    | .ok (allCatResults, tr1) =>
      let unique := dedupHits maxResults allCatResults
      if unique.isEmpty then .ok (results, tr1)
      else .ok ({ results with hits := some unique }, tr1)
  else .ok (results, tr)

/-- The fixed `relevant_terms` list of stage 3 (`rag_system.py` line 94). -/
def relevantTerms : List String :=
  ["clothing", "furniture", "electronics", "phone", "chair", "saree", "stole",
   "affordable", "gift", "office"]

/-- Whitespace splitting as Python `str.split()` does it: maximal non-blank
runs, no empty words.  `acc` holds the characters of the current word in
reverse. -/
def wsSplitAux : List Char → List Char → List String
  | [], acc => if acc.isEmpty then [] else [⟨acc.reverse⟩]
  | c :: cs, acc =>
    if c.isWhitespace then
      if acc.isEmpty then wsSplitAux cs []
      else ⟨acc.reverse⟩ :: wsSplitAux cs []
    else wsSplitAux cs (c :: acc)

/-- Python `s.split()`. -/
def wsSplit (s : String) : List String := wsSplitAux s.data []

/-- Embeds `[word for word in query_lower.split() if len(word) > 2]`. -/
def queryWords (queryLower : String) : List String :=
  (wsSplit queryLower).filter (fun w => 2 < w.length)

/-- The merge of one term batch in stage 3 (`rag_system.py` lines 105-108):
`existing_ids` is computed once from the current hits and not updated while
hits from the batch are appended (so a batch with an internally repeated new
id adds it twice). -/
def mergeNewHits (maxResults : ℕ) (existing : List (Option String))
    (acc : List Doc) : List Doc → List Doc
  | [] => acc
  | h :: rest =>
    if h.id ∉ existing ∧ acc.length < maxResults then
      mergeNewHits maxResults existing (acc ++ [h]) rest
    else mergeNewHits maxResults existing acc rest

/-- The term loop of stage 3 (`rag_system.py` lines 96-108), including the
early break once `max_results` hits are present and the wholesale replacement
`results = term_results` when the current hit list is empty or absent. -/
def stage3Loop (o : Oracle) (maxResults : ℕ) :
    List String → SearchResult → List SearchCall →
    Except Unit (SearchResult × List SearchCall)
  | [], results, tr => .ok (results, tr)
  | term :: rest, results, tr =>
    if maxResults ≤ (results.hits.getD []).length then .ok (results, tr)
    else
      match callSearch o term (maxResults - (results.hits.getD []).length) none tr with
      | .error e => .error e
      | .ok (termResults, tr1) =>
        let results' :=
          if (termResults.hits.getD []).isEmpty then results
          else if (results.hits.getD []).isEmpty then termResults
          else
            { results with
                hits := some (mergeNewHits maxResults
                  ((results.hits.getD []).map (fun h => h.id))
                  (results.hits.getD []) (termResults.hits.getD [])) }
        stage3Loop o maxResults rest results' tr1

/-- Stage 3 of `_smart_search` (`rag_system.py` lines 90-110). -/
def stage3 (o : Oracle) (queryLower : String) (maxResults : ℕ)
    (results : SearchResult) (tr : List SearchCall) :
    Except Unit (SearchResult × List SearchCall) :=
  if (results.hits.getD []).isEmpty ∨ (results.hits.getD []).length < maxResults then
    stage3Loop o maxResults (relevantTerms ++ queryWords queryLower) results tr
  else .ok (results, tr)

/-- The final normalization of `_smart_search` (`rag_system.py` lines
112-117): ensure `hits` is a list, default `estimatedTotalHits` to the hit
count and `processingTimeMs` to `0`. -/
def normalizeResults (r : SearchResult) : SearchResult :=
  let r := if (r.hits.getD []).isEmpty then { r with hits := some [] } else r
  let r := if r.estimatedTotalHits.isNone then
    { r with estimatedTotalHits := some ((r.hits.getD []).length : ℤ) } else r
  if r.processingTimeMs.isNone then { r with processingTimeMs := some 0 } else r

/-- The `try` body of `_smart_search`: stage 1, stage 2, stage 3,
normalization, with the engine-call trace threaded through. -/
def smartSearchBody (o : Oracle) (query : String) (maxResults : ℕ)
    (filters : Option String) : Except Unit (SearchResult × List SearchCall) :=
  let queryLower := strLower query
  match callSearch o query maxResults filters [] with
  | .error e => .error e
  | .ok (r1, tr1) =>
    match stage2 o query queryLower maxResults r1 tr1 with
    | .error e => .error e
    | .ok (r2, tr2) =>
      match stage3 o queryLower maxResults r2 tr2 with
      | .error e => .error e
      | .ok (r3, tr3) => .ok (normalizeResults r3, tr3)

/-- The dict returned by the `except` arm of `_smart_search`. -/
def emptySearchResult : SearchResult :=
  { hits := some [], estimatedTotalHits := some 0, processingTimeMs := some 0 }

/-- Embeds `AgenticRAGSystem._smart_search`: any exception from any stage degrades to
the well-formed empty result. -/
def smartSearch (o : Oracle) (query : String) (maxResults : ℕ)
    (filters : Option String) : SearchResult :=
  match smartSearchBody o query maxResults filters with
  | .ok (r, _) => r
  | .error _ => emptySearchResult

/-! ### Query Pipeline (`AgenticRAGSystem.query`) -/

/-- One entry of the per-query `sources` list. -/
structure SourceEntry where
  order_id : Option String
  category : Option String
  sub_category : Option String
  amount : Option ℚ
  profit : Option String
  content : String
deriving Repr, DecidableEq

/-- The signed profit rendering of `query` (`rag_system.py` lines 249-256):
`f"+${profit:.2f}"`, `f"-${abs(profit):.2f}"`, or `"$0.00"`. -/
def signedProfitString (profit : ℚ) : String :=
  if 0 < profit then "+$" ++ fmtMoney profit
  else if profit < 0 then "-$" ++ fmtMoney (-profit)
  else "$0.00"

/-- One `sources` entry built from a context document (`rag_system.py` lines
242-265): the profit string is only computed for business intent and only when
the document carries a profit value. -/
def mkSourceEntry (isPersonal : Bool) (doc : Doc) : SourceEntry :=
  { order_id := doc.order_id
    category := doc.category
    sub_category := doc.sub_category
    amount := doc.amount
    profit := if isPersonal then none else doc.profit.map signedProfitString
    content := pickContent isPersonal doc }

/-- The response envelope of `query`.  `context_detected` is `Option`-valued
because the no-results response omits that key. -/
structure QueryResponse where
  query : String
  answer : String
  context : List Doc
  context_detected : Option String
  search_time : ℤ
  llm_time : ℤ
  total_time : ℤ
  sources : List SourceEntry
  search_stats_total_hits : ℤ
  search_stats_processing_ms : ℤ
deriving Repr, DecidableEq

/-- Embeds `max_results or Config.MAX_SEARCH_RESULTS` with
`Config.MAX_SEARCH_RESULTS = 5` (a `None` or falsy `0` argument selects the
default). -/
def effectiveMaxResults : Option ℕ → ℕ
  | none => 5
  | some n => if n = 0 then 5 else n

/-- The canned no-results answer (`rag_system.py` line 212). -/
def noResultsAnswer : String :=
  "I couldn't find any relevant data to answer your question. Please try rephrasing your query."

/-- The LLM gateway: takes the assembled messages and either returns the
generated answer text (`choices[0]['message']['content']`) or raises. -/
abbrev LlmOracle := List Message → Except Unit String

/-- Embeds `AgenticRAGSystem.query` (`rag_system.py` lines 194-288).  `clock k` is
the value of the `k`-th `time.time()` call; model/temperature/max-token
arguments only parameterize the external LLM and are absorbed into `llm`.
An LLM failure is re-raised (`.error`); a search failure never reaches here
(`smartSearch` degrades it to an empty result). -/
def queryFn (o : Oracle) (llm : LlmOracle) (clock : ℕ → ℤ) (userQuery : String)
    (maxResults : Option ℕ) (filters : Option String) :
    Except Unit QueryResponse :=
  let startTime := clock 0
  let searchResults := smartSearch o userQuery (effectiveMaxResults maxResults) filters
  let searchTime := clock 1 - startTime
  match searchResults.hits with
  | none => .error ()  -- KeyError on `search_results['hits']`; unreachable
  | some hits =>
    if hits.isEmpty then
      .ok { query := userQuery
            answer := noResultsAnswer
            context := []
            context_detected := none
            search_time := searchTime
            llm_time := 0
            total_time := clock 2 - startTime
            sources := []
            search_stats_total_hits := 0
            search_stats_processing_ms := 0 }
    else
      let isPersonal := detectPersonalContext userQuery
      let messages := createRagPrompt userQuery hits isPersonal
      match llm messages with
      | .error e => .error e
      | .ok answer =>
        .ok { query := userQuery
              answer := answer
              context := hits
              context_detected := some (if isPersonal then "PERSONAL" else "BUSINESS")
              search_time := searchTime
              llm_time := clock 3 - clock 2
              total_time := clock 4 - startTime
              sources := hits.map (mkSourceEntry isPersonal)
              search_stats_total_hits := searchResults.estimatedTotalHits.getD 0
              search_stats_processing_ms := searchResults.processingTimeMs.getD 0 }

/-! ### Index lifecycle (`MeilisearchClient.delete_index`,
`AgenticRAGSystem.setup_index`) -/

/-- Embeds `MeilisearchClient.delete_index`: the outcome of the underlying
`client.delete_index` call is its argument; every raise is caught and turned
into `False`. -/
def deleteIndex (res : Except Unit Unit) : Bool :=
  match res with
  | .ok _ => true
  | .error _ => false

/-- Outcomes of the collaborator calls made during `setup_index`. -/
structure SetupEnv where
  healthOk : Bool
  deleteRes : Except Unit Unit
  createRes : Except Unit Unit
  configureRes : Except Unit Unit
  loadRes : Except Unit (List OrderRow)
  addRes : Except Unit Unit
deriving Repr

/-- Embeds `AgenticRAGSystem.setup_index` (`rag_system.py` lines 161-192), returning
the result (`.error` models the re-raise of a caught exception) paired with
the ordered trace of collaborator operations attempted.  The return value of
`delete_index` is discarded by the source, and `delete_index` itself never
raises. -/
def setupIndex (env : SetupEnv) : Except Unit Bool × List String :=
  if ¬ env.healthOk then (.ok false, ["health_check"])
  else
    let _deleted := deleteIndex env.deleteRes
    match env.createRes with
    | .error e => (.error e, ["health_check", "delete_index", "create_index"])
    | .ok _ =>
      match env.configureRes with
      | .error e =>
        (.error e,
         ["health_check", "delete_index", "create_index", "configure_search_settings"])
      | .ok _ =>
        match env.loadRes with
        | .error e =>
          (.error e,
           ["health_check", "delete_index", "create_index",
            "configure_search_settings", "process_data"])
        | .ok _docs =>
          match env.addRes with
          | .error e =>
            (.error e,
             ["health_check", "delete_index", "create_index",
              "configure_search_settings", "process_data", "add_documents"])
          | .ok _ =>
            (.ok true,
             ["health_check", "delete_index", "create_index",
              "configure_search_settings", "process_data", "add_documents"])

/-! ### Claim-side specification functions

These are written from the specification's wording, to be compared with the
embedded code above. -/

/-- First-occurrence filter: keeps the first hit carrying each id, drops every
later occurrence, preserving order ("first occurrence wins"). -/
def firstOccurAux (seen : List (Option String)) : List Doc → List Doc
  | [] => []
  | h :: rest =>
    if h.id ∈ seen then firstOccurAux seen rest
    else h :: firstOccurAux (h.id :: seen) rest

/-- First-occurrence filter over a whole batch sequence (concatenated). -/
def firstOccurrences (hits : List Doc) : List Doc := firstOccurAux [] hits

/-- The category list the specification says stage 2 searches: the categories
whose keyword set intersects the lower-cased query, or all known categories if
none matches. -/
def selectedCategories (queryLower : String) : List String :=
  if matchingCategories queryLower = [] then allCategoryNames
  else matchingCategories queryLower

/-- The engine-call sequence the specification prescribes for stage 2: for
each selected category, a search for the query filtered to the category at
twice the limit, followed by a retry with the category name as the query
(same filter) exactly when the first call returns no hits. -/
def stage2ExpectedCalls (o : Oracle) (q : String) (m : ℕ) :
    List String → List SearchCall
  | [] => []
  | c :: cs =>
    ⟨q, m * 2, some (catFilterStr c)⟩ ::
      (match o q (m * 2) (some (catFilterStr c)) with
       | .error _ => []
       | .ok r =>
         if (r.hits.getD []).isEmpty then
           ⟨c, m, some (catFilterStr c)⟩ :: stage2ExpectedCalls o q m cs
         else stage2ExpectedCalls o q m cs)

/-- The accumulated hits the specification prescribes for stage 2: per
selected category, the filtered-search hits, or the retry's hits when the
filtered search returned none. -/
def stage2AccumSpec (o : Oracle) (q : String) (m : ℕ) :
    List String → List Doc
  | [] => []
  | c :: cs =>
    (match o q (m * 2) (some (catFilterStr c)) with
     | .error _ => []
     | .ok r =>
       if (r.hits.getD []).isEmpty then
         match o c m (some (catFilterStr c)) with
         | .error _ => []
         | .ok br => br.hits.getD []
       else r.hits.getD []) ++ stage2AccumSpec o q m cs

/-! ### Concrete objects used by witnesses and counterexamples -/

/-- A record used for witnessing (the spec's sample scenario record). -/
def rowA : OrderRow :=
  { order_id := "B-26055", amount := 50, profit := -5, quantity := 1,
    category := "Furniture", sub_category := "Chairs" }

/-- Same record as `rowA` except for `profit`. -/
def rowB : OrderRow :=
  { order_id := "B-26055", amount := 50, profit := 99, quantity := 1,
    category := "Furniture", sub_category := "Chairs" }

/-- A minimal hit carrying only an id. -/
def docA : Doc := { id := some "a" }

/-- A second minimal hit with a distinct id. -/
def docC : Doc := { id := some "c" }

/-- An engine that answers every call with the hit `docA` repeated twice
(clipped to the requested limit, so it always respects the limit). -/
def dupOracle : Oracle := fun _ l _ =>
  .ok { hits := some (List.replicate (min 2 l) docA) }

/-- A fully populated hit document. -/
def docB : Doc :=
  { id := some "order_0", order_id := some "B-1", category := some "Furniture",
    sub_category := some "Chairs", amount := some 50, profit := some (-5),
    content := some "consumer text", business_content := some "business text" }

/-- An engine that answers every call with the single hit `docB`. -/
def bizOracle : Oracle := fun _ _ _ =>
  .ok { hits := some [docB], estimatedTotalHits := some 1, processingTimeMs := some 3 }

/-- An engine that answers every call with an empty dict (no hits key). -/
def noHitsOracle : Oracle := fun _ _ _ => .ok {}

/-- An engine that raises on every call. -/
def errOracle : Oracle := fun _ _ _ => .error ()

/-- An LLM that always answers. -/
def okLlm : LlmOracle := fun _ => .ok "the answer"

/-- An LLM that always raises. -/
def noLlm : LlmOracle := fun _ => .error ()

/-- A clock that always reads zero. -/
def zclock : ℕ → ℤ := fun _ => 0

/-- The response produced by `queryFn bizOracle okLlm zclock "profit" (some 1) none`. -/
def c5Resp : QueryResponse :=
  { query := "profit", answer := "the answer", context := [docB],
    context_detected := some "BUSINESS", search_time := 0, llm_time := 0,
    total_time := 0,
    sources := [{ order_id := some "B-1", category := some "Furniture",
                  sub_category := some "Chairs", amount := some 50,
                  profit := some "-$5.00", content := "business text" }],
    search_stats_total_hits := 1, search_stats_processing_ms := 3 }

/-- The response produced by `queryFn noHitsOracle okLlm zclock "xyzzy" none none`. -/
def c9Resp : QueryResponse :=
  { query := "xyzzy", answer := noResultsAnswer, context := [],
    context_detected := none, search_time := 0, llm_time := 0, total_time := 0,
    sources := [], search_stats_total_hits := 0, search_stats_processing_ms := 0 }

/-- A setup run in which the pre-existing index cannot be deleted but
everything else succeeds. -/
def setupEnvWit : SetupEnv :=
  { healthOk := true, deleteRes := .error (), createRes := .ok (),
    configureRes := .ok (), loadRes := .ok [], addRes := .ok () }

/-! ### C1 — intent classifier decision rule -/

/-- C1: the intent classifier returns BUSINESS exactly when the number of
business keywords occurring (case-insensitively) as substrings of the query
strictly exceeds the number of personal keywords so occurring and is strictly
positive, and PERSONAL otherwise; the empty query is PERSONAL, a
business-keyword query is BUSINESS, a personal-keyword query is PERSONAL.
Both copies of the detector (`rag_system.py` and `openrouter_client.py`)
satisfy the rule relative to their own keyword lists.  The classifier is a
pure Lean function, so determinism (same query, same label) is inherent. -/
theorem intent_classifier_decision_rule :
    (∀ q : String,
      (classifyIntent q = "BUSINESS" ↔
        countKeywordMatches businessKeywords (strLower q) >
            countKeywordMatches personalKeywords (strLower q) ∧
          countKeywordMatches businessKeywords (strLower q) > 0) ∧
      (classifyIntent q = "PERSONAL" ↔
        ¬(countKeywordMatches businessKeywords (strLower q) >
            countKeywordMatches personalKeywords (strLower q) ∧
          countKeywordMatches businessKeywords (strLower q) > 0)) ∧
      (classifyIntentClient q = "BUSINESS" ↔
        countKeywordMatches businessKeywordsClient (strLower q) >
            countKeywordMatches personalKeywords (strLower q) ∧
          countKeywordMatches businessKeywordsClient (strLower q) > 0) ∧
      (classifyIntentClient q = "PERSONAL" ↔
        ¬(countKeywordMatches businessKeywordsClient (strLower q) >
            countKeywordMatches personalKeywords (strLower q) ∧
          countKeywordMatches businessKeywordsClient (strLower q) > 0))) ∧
    classifyIntent "" = "PERSONAL" ∧
    classifyIntent "show me profit margins by category" = "BUSINESS" ∧
    classifyIntent "I need a gift for my vacation" = "PERSONAL" ∧
    classifyIntentClient "" = "PERSONAL" ∧
    classifyIntentClient "show me profit margins by category" = "BUSINESS" ∧
    classifyIntentClient "I need a gift for my vacation" = "PERSONAL" := by
  refine ⟨fun q => ⟨?_, ?_, ?_, ?_⟩,
    by decide, by decide, by decide, by decide, by decide, by decide⟩
  · by_cases h : countKeywordMatches businessKeywords (strLower q) >
        countKeywordMatches personalKeywords (strLower q) ∧
      countKeywordMatches businessKeywords (strLower q) > 0 <;>
      simp [classifyIntent, detectPersonalContext, h]
  · by_cases h : countKeywordMatches businessKeywords (strLower q) >
        countKeywordMatches personalKeywords (strLower q) ∧
      countKeywordMatches businessKeywords (strLower q) > 0 <;>
      simp [classifyIntent, detectPersonalContext, h]
  · by_cases h : countKeywordMatches businessKeywordsClient (strLower q) >
        countKeywordMatches personalKeywords (strLower q) ∧
      countKeywordMatches businessKeywordsClient (strLower q) > 0 <;>
      simp [classifyIntentClient, detectPersonalContextClient, h]
  · by_cases h : countKeywordMatches businessKeywordsClient (strLower q) >
        countKeywordMatches personalKeywords (strLower q) ∧
      countKeywordMatches businessKeywordsClient (strLower q) > 0 <;>
      simp [classifyIntentClient, detectPersonalContextClient, h]

/-! ### C2 — profit noninterference of the consumer rendering -/

/-- C2: the consumer `content` rendering is a function of Sub-Category,
Category, Amount and Quantity only — two records differing only in Profit
render identically — while `business_content` always contains the record's
profit figure (`$` followed by the two-decimal rendering of the profit). -/
theorem consumer_content_profit_noninterference (r r' : OrderRow)
    (hsub : r.sub_category = r'.sub_category) (hcat : r.category = r'.category)
    (hamt : r.amount = r'.amount) (hqty : r.quantity = r'.quantity) :
    createConsumerFriendlyContent r = createConsumerFriendlyContent r' ∧
    ∃ s t, createBusinessContent r = s ++ ("$" ++ fmtMoney r.profit) ++ t := by
  constructor
  · unfold createConsumerFriendlyContent
    rw [hsub, hcat, hamt, hqty]
  · refine ⟨"Product: " ++ r.sub_category ++ " from " ++ r.category ++
      " category. Price: $" ++ fmtMoney r.amount ++ ", Profit: ",
      ", Quantity available: " ++ toString r.quantity ++ ". This is a " ++
      getAmountRange r.amount ++ "-priced item with " ++
      getProfitDescription r.profit ++ ".", ?_⟩
    unfold createBusinessContent
    apply String.ext
    simp [String.data_append, List.append_assoc]

/-- Witness for C2 at two concrete records differing only in profit. -/
theorem consumer_content_profit_noninterference_witness :
    rowA.sub_category = rowB.sub_category ∧ rowA.category = rowB.category ∧
    rowA.amount = rowB.amount ∧ rowA.quantity = rowB.quantity ∧
    (createConsumerFriendlyContent rowA = createConsumerFriendlyContent rowB ∧
     ∃ s t, createBusinessContent rowA = s ++ ("$" ++ fmtMoney rowA.profit) ++ t) :=
  ⟨rfl, rfl, rfl, rfl,
    consumer_content_profit_noninterference rowA rowB rfl rfl rfl rfl⟩

/-! ### C3 — deduplication across the retrieve -/

/-- C3 as stated is false: when a single engine batch contains a repeated id
and already fills `max_results`, `_smart_search` returns it unchanged.  Here
every call answers `[docA, docA]` (respecting every requested limit, as the
third conjunct certifies), and the returned hit list repeats the id `"a"`. -/
theorem smart_search_duplicate_ids_counterexample :
    (smartSearch dupOracle "chairs" 2 none).hits = some [docA, docA] ∧
    ¬ (((smartSearch dupOracle "chairs" 2 none).hits.getD []).map
        (fun h => h.id)).Nodup ∧
    (∀ q l f r, dupOracle q l f = .ok r → (r.hits.getD []).length ≤ l) := by
  refine ⟨by decide, by decide, ?_⟩
  intro q l f r h
  have hr : r = { hits := some (List.replicate (min 2 l) docA) } := by
    simpa [dupOracle] using h.symm
  subst hr
  simp

/-- Auxiliary: the stage-2 truncating dedup loop computes a prefix of the
first-occurrence filter. -/
theorem dedupLoop_eq_take (cap : ℕ) :
    ∀ (l : List Doc) (seen : List (Option String)) (count : ℕ), count < cap →
      dedupLoop cap seen count l = (firstOccurAux seen l).take (cap - count)
  | [], _, _, _ => by simp [dedupLoop, firstOccurAux]
  | h :: rest, seen, count, hc => by
    unfold dedupLoop firstOccurAux
    by_cases hseen : h.id ∈ seen
    · simp only [hseen, if_true]
      exact dedupLoop_eq_take cap rest seen count hc
    · simp only [hseen, if_false]
      by_cases hcap : cap ≤ count + 1
      · have h1 : cap - count = 1 := by omega
        simp [hcap, h1]
      · have h1 : cap - count = (cap - (count + 1)) + 1 := by omega
        simp only [hcap, if_false, h1, List.take_succ_cons]
        rw [dedupLoop_eq_take cap rest (h.id :: seen) (count + 1) (by omega)]

/-- Auxiliary: the first-occurrence filter yields ids disjoint from `seen`
and without duplicates. -/
theorem firstOccurAux_nodup :
    ∀ (l : List Doc) (seen : List (Option String)),
      (∀ x ∈ (firstOccurAux seen l).map (fun h => h.id), x ∉ seen) ∧
      ((firstOccurAux seen l).map (fun h => h.id)).Nodup
  | [], seen => by simp [firstOccurAux]
  | h :: rest, seen => by
    unfold firstOccurAux
    by_cases hseen : h.id ∈ seen
    · simpa [hseen] using firstOccurAux_nodup rest seen
    · have ih := firstOccurAux_nodup rest (h.id :: seen)
      simp only [hseen, if_false, List.map_cons, List.nodup_cons]
      refine ⟨?_, ?_, ih.2⟩
      · intro x hx
        rcases List.mem_cons.mp hx with hx | hx
        · exact hx ▸ hseen
        · intro hxs
          exact ih.1 x hx (List.mem_cons_of_mem _ hxs)
      · intro hmem
        exact ih.1 h.id hmem (List.mem_cons_self _ _)

/-- C3 amended: the guarantee holds of the stage-2 merge step itself — for any
accumulated batch sequence, `dedupHits` keeps exactly the first occurrence of
each id in order, truncated to `max_results` (which the pipeline always calls
with a positive value), so its output has no duplicate ids and at most
`max_results` entries.  `_smart_search` as a whole forwards a stage-1 batch
unchanged (see the counterexample). -/
theorem merge_step_dedup_first_seen (cap : ℕ) (hits : List Doc) (hcap : 1 ≤ cap) :
    dedupHits cap hits = (firstOccurrences hits).take cap ∧
    ((dedupHits cap hits).map (fun h => h.id)).Nodup ∧
    (dedupHits cap hits).length ≤ cap := by
  have heq : dedupHits cap hits = (firstOccurrences hits).take cap := by
    have h0 := dedupLoop_eq_take cap hits [] 0 (by omega)
    simpa [dedupHits, firstOccurrences] using h0
  refine ⟨heq, ?_, ?_⟩
  · rw [heq, List.map_take]
    exact List.Sublist.nodup (List.take_sublist _ _) (firstOccurAux_nodup hits []).2
  · rw [heq]
    exact le_trans (List.length_take_le _ _) le_rfl

/-- Witness for the amended C3 on a concrete batch sequence with a repeat. -/
theorem merge_step_dedup_first_seen_witness :
    1 ≤ 2 ∧
    (dedupHits 2 [docA, docC, docA] = (firstOccurrences [docA, docC, docA]).take 2 ∧
     ((dedupHits 2 [docA, docC, docA]).map (fun h => h.id)).Nodup ∧
     (dedupHits 2 [docA, docC, docA]).length ≤ 2) :=
  ⟨by decide, merge_step_dedup_first_seen 2 [docA, docC, docA] (by decide)⟩

/-! ### C4 — total engine failure degrades to the canned empty response -/

/-- C4: when every engine call raises, `_smart_search` returns exactly the
empty result dict `{hits: [], estimatedTotalHits: 0, processingTimeMs: 0}`
and `query` returns the canned no-results response with `llm_time = 0`, empty
sources, zero search stats and no `context_detected` key; the outcome is
independent of the LLM, which is therefore never consulted. -/
theorem search_failure_degrades_to_empty (o : Oracle)
    (ho : ∀ q l f, o q l f = .error ()) (llm llm' : LlmOracle) (clock : ℕ → ℤ)
    (uq : String) (mr : Option ℕ) (f : Option String) :
    smartSearch o uq (effectiveMaxResults mr) f = emptySearchResult ∧
    queryFn o llm clock uq mr f = .ok
      { query := uq, answer := noResultsAnswer, context := [],
        context_detected := none, search_time := clock 1 - clock 0,
        llm_time := 0, total_time := clock 2 - clock 0, sources := [],
        search_stats_total_hits := 0, search_stats_processing_ms := 0 } ∧
    queryFn o llm clock uq mr f = queryFn o llm' clock uq mr f := by
  have hbody : ∀ m fi, smartSearchBody o uq m fi = .error () := by
    intro m fi
    unfold smartSearchBody callSearch
    rw [ho]
  have hs : ∀ m fi, smartSearch o uq m fi = emptySearchResult := by
    intro m fi
    unfold smartSearch
    rw [hbody]
  have hq : queryFn o llm clock uq mr f = .ok
      { query := uq, answer := noResultsAnswer, context := [],
        context_detected := none, search_time := clock 1 - clock 0,
        llm_time := 0, total_time := clock 2 - clock 0, sources := [],
        search_stats_total_hits := 0, search_stats_processing_ms := 0 } := by
    unfold queryFn
    rw [hs]
    rfl
  have hq' : queryFn o llm' clock uq mr f = .ok
      { query := uq, answer := noResultsAnswer, context := [],
        context_detected := none, search_time := clock 1 - clock 0,
        llm_time := 0, total_time := clock 2 - clock 0, sources := [],
        search_stats_total_hits := 0, search_stats_processing_ms := 0 } := by
    unfold queryFn
    rw [hs]
    rfl
  exact ⟨hs _ _, hq, hq.trans hq'.symm⟩

/-- Witness for C4 with the always-raising engine. -/
theorem search_failure_degrades_to_empty_witness :
    (∀ q l f, errOracle q l f = .error ()) ∧
    (smartSearch errOracle "what sells best" (effectiveMaxResults none) none =
        emptySearchResult ∧
     queryFn errOracle okLlm zclock "what sells best" none none = .ok
       { query := "what sells best", answer := noResultsAnswer, context := [],
         context_detected := none, search_time := zclock 1 - zclock 0,
         llm_time := 0, total_time := zclock 2 - zclock 0, sources := [],
         search_stats_total_hits := 0, search_stats_processing_ms := 0 } ∧
     queryFn errOracle okLlm zclock "what sells best" none none =
       queryFn errOracle noLlm zclock "what sells best" none none) :=
  ⟨fun _ _ _ => rfl,
    search_failure_degrades_to_empty errOracle (fun _ _ _ => rfl) okLlm noLlm
      zclock "what sells best" none none⟩

/-! ### C5 — intent-gated profit and content in the sources list -/

/-- C5: in every successful response, each sources entry carries `profit =
none` under PERSONAL intent; under BUSINESS intent it carries the signed
profit string of the corresponding document (when that document has a profit
value; `none` otherwise), and the entry's content is the document's `content`
for PERSONAL and its `business_content` (falling back to `content`) for
BUSINESS. -/
theorem sources_profit_gating (o : Oracle) (llm : LlmOracle) (clock : ℕ → ℤ)
    (uq : String) (mr : Option ℕ) (f : Option String) (resp : QueryResponse)
    (h : queryFn o llm clock uq mr f = .ok resp)
    (i : ℕ) (hi : i < resp.sources.length) (hc : i < resp.context.length) :
    (resp.context_detected = some "PERSONAL" →
      resp.sources[i].profit = none ∧
      resp.sources[i].content = resp.context[i].content.getD "") ∧
    (resp.context_detected = some "BUSINESS" →
      resp.sources[i].profit = resp.context[i].profit.map signedProfitString ∧
      resp.sources[i].content =
        resp.context[i].business_content.getD (resp.context[i].content.getD "")) := by
  unfold queryFn at h
  dsimp only [] at h
  split at h
  · simp at h
  · next hits hhits =>
    split at h
    · next hempty =>
      simp only [Except.ok.injEq] at h
      subst h
      simp at hi
    · next hempty =>
      split at h
      · simp at h
      · next ans hans =>
        simp only [Except.ok.injEq] at h
        subst h
        simp only [List.getElem_map]
        by_cases hp : detectPersonalContext uq
        · simp [hp, mkSourceEntry, pickContent]
        · simp [hp, mkSourceEntry, pickContent]

/-- Witness for C5 on a concrete business-intent run with one negative-profit
document. -/
theorem sources_profit_gating_witness :
    queryFn bizOracle okLlm zclock "profit" (some 1) none = .ok c5Resp ∧
    ((c5Resp.context_detected = some "PERSONAL" →
      c5Resp.sources[0].profit = none ∧
      c5Resp.sources[0].content = c5Resp.context[0].content.getD "") ∧
     (c5Resp.context_detected = some "BUSINESS" →
      c5Resp.sources[0].profit = c5Resp.context[0].profit.map signedProfitString ∧
      c5Resp.sources[0].content =
        c5Resp.context[0].business_content.getD (c5Resp.context[0].content.getD ""))) :=
  ⟨rfl, sources_profit_gating bizOracle okLlm zclock "profit" (some 1) none c5Resp
    rfl 0 (by decide) (by decide)⟩

/-! ### C6 — stage-2 category selection, call pattern and replacement rule -/

/-- Auxiliary: dropping an `isEmpty` guard around a list is the identity. -/
theorem ite_isEmpty_self (l : List Doc) :
    (if l.isEmpty then ([] : List Doc) else l) = l := by
  cases l <;> simp

/-- Auxiliary: the stage-2 per-category loop issues exactly the prescribed
calls and accumulates exactly the prescribed hits (for a non-raising engine). -/
theorem stage2Loop_spec (o : Oracle) (ho : ∀ q l f, ∃ r, o q l f = .ok r)
    (query : String) (m : ℕ) :
    ∀ (cats : List String) (tr : List SearchCall),
      stage2Loop o query m cats tr =
        .ok (stage2AccumSpec o query m cats, tr ++ stage2ExpectedCalls o query m cats)
  | [], tr => by simp [stage2Loop, stage2AccumSpec, stage2ExpectedCalls]
  | c :: cs, tr => by
    obtain ⟨r, hr⟩ := ho query (m * 2) (some (catFilterStr c))
    obtain ⟨br, hbr⟩ := ho c m (some (catFilterStr c))
    unfold stage2Loop stage2AccumSpec stage2ExpectedCalls callSearch
    rw [hr, hbr]
    have ih := stage2Loop_spec o ho query m cs
    by_cases he : (r.hits.getD []).isEmpty = true
    · simp only [he, if_true, ih]
      simp [ite_isEmpty_self, List.append_assoc]
    · simp only [he, if_false, ih]
      simp [List.append_assoc]

/-- Auxiliary: the truncating dedup is empty exactly on empty input. -/
theorem dedupHits_isEmpty (m : ℕ) (l : List Doc) :
    (dedupHits m l).isEmpty = l.isEmpty := by
  cases l with
  | nil => rfl
  | cons h t =>
    unfold dedupHits dedupLoop
    simp only [List.not_mem_nil, if_false]
    by_cases hc : m ≤ 0 + 1 <;> simp [hc]

/-- Auxiliary: membership of a first component in a filtered
association list, when the keys are distinct. -/
theorem mem_map_fst_filter {l : List (String × List String)}
    (hnd : (l.map Prod.fst).Nodup) (p : String × List String → Bool)
    (ck : String × List String) (hck : ck ∈ l) :
    ck.1 ∈ (l.filter p).map Prod.fst ↔ p ck = true := by
  constructor
  · intro hmem
    obtain ⟨x, hxf, hx1⟩ := List.mem_map.mp hmem
    obtain ⟨hxl, hpx⟩ := List.mem_filter.mp hxf
    have hx : x = ck := List.inj_on_of_nodup_map hnd hxl hck hx1
    exact hx ▸ hpx
  · intro hp
    exact List.mem_map_of_mem Prod.fst (List.mem_filter.mpr ⟨hck, hp⟩)

/-- C6: when stage 1 yielded fewer than `max_results` hits and the engine does
not raise, stage 2 selects exactly the categories whose keyword set intersects
the lower-cased query (all known categories when none matches), issues for
each selected category — in mapping order — a filtered search for the query
requesting `2 × max_results` hits followed, exactly when that search returns
no hits, by a retry with the category name as the query under the same filter,
and replaces the stage-1 hit list with the deduplicated, truncated
accumulation precisely when that accumulation is non-empty. -/
theorem stage2_category_selection_and_calls (o : Oracle)
    (ho : ∀ q l f, ∃ r, o q l f = .ok r)
    (query : String) (m : ℕ) (r1 : SearchResult) (tr : List SearchCall)
    (h1 : (r1.hits.getD []).length < m) :
    stage2 o query (strLower query) m r1 tr =
      .ok ((if (stage2AccumSpec o query m (selectedCategories (strLower query))).isEmpty
            then r1
            else { r1 with hits := some (dedupHits m
              (stage2AccumSpec o query m (selectedCategories (strLower query)))) }),
           tr ++ stage2ExpectedCalls o query m (selectedCategories (strLower query))) ∧
    (∀ ck ∈ categoryMapping,
      ck.1 ∈ matchingCategories (strLower query) ↔
        ∃ kw ∈ ck.2, strContains (strLower query) kw = true) ∧
    (matchingCategories (strLower query) = [] →
      selectedCategories (strLower query) = allCategoryNames) ∧
    (matchingCategories (strLower query) ≠ [] →
      selectedCategories (strLower query) = matchingCategories (strLower query)) := by
  set ql := strLower query with hql
  refine ⟨?_, ?_, ?_, ?_⟩
  · unfold stage2
    have hcond : ((r1.hits.getD []).isEmpty = true ∨ (r1.hits.getD []).length < m) :=
      Or.inr h1
    rw [if_pos hcond]
    dsimp only []
    have hcats : (if (matchingCategories ql).isEmpty = true then allCategoryNames
        else matchingCategories ql) = selectedCategories ql := by
      unfold selectedCategories
      by_cases hm : matchingCategories ql = [] <;> simp [hm]
    rw [hcats, stage2Loop_spec o ho query m (selectedCategories ql) tr]
    dsimp only []
    by_cases hacc : (stage2AccumSpec o query m (selectedCategories ql)).isEmpty = true
    · rw [if_pos ((dedupHits_isEmpty m _).trans hacc)]
      simp [hacc]
    · rw [if_neg (fun hcontra => hacc ((dedupHits_isEmpty m _) ▸ hcontra))]
      simp [hacc]
  · intro ck hck
    unfold matchingCategories
    rw [mem_map_fst_filter (by decide) _ ck hck]
    simp
  · intro hm
    simp [selectedCategories, hm]
  · intro hm
    simp [selectedCategories, hm]

/-- Witness for C6: the query "chairs" triggers exactly the furniture
category; the filtered search and its retry both return nothing, so stage 2
keeps the stage-1 result and issues exactly the two prescribed calls. -/
theorem stage2_category_selection_and_calls_witness :
    ((({} : SearchResult).hits.getD []).length < 2) ∧
    (stage2 noHitsOracle "chairs" (strLower "chairs") 2 {} [] =
      .ok ((if (stage2AccumSpec noHitsOracle "chairs" 2
                  (selectedCategories (strLower "chairs"))).isEmpty
            then ({} : SearchResult)
            else { ({} : SearchResult) with hits := some (dedupHits 2
              (stage2AccumSpec noHitsOracle "chairs" 2
                (selectedCategories (strLower "chairs")))) }),
           [] ++ stage2ExpectedCalls noHitsOracle "chairs" 2
              (selectedCategories (strLower "chairs"))) ∧
     (∀ ck ∈ categoryMapping,
       ck.1 ∈ matchingCategories (strLower "chairs") ↔
         ∃ kw ∈ ck.2, strContains (strLower "chairs") kw = true) ∧
     (matchingCategories (strLower "chairs") = [] →
       selectedCategories (strLower "chairs") = allCategoryNames) ∧
     (matchingCategories (strLower "chairs") ≠ [] →
       selectedCategories (strLower "chairs") = matchingCategories (strLower "chairs"))) ∧
    stage2 noHitsOracle "chairs" (strLower "chairs") 2 {} [] =
      .ok ({}, [⟨"chairs", 4, some "category = 'Furniture'"⟩,
                ⟨"furniture", 2, some "category = 'Furniture'"⟩]) :=
  ⟨by decide,
   stage2_category_selection_and_calls noHitsOracle (fun _ _ _ => ⟨{}, rfl⟩)
     "chairs" 2 {} [] (by decide),
   rfl⟩

/-! ### C7 — range buckets -/

/-- C7: the three range bucketings are total, non-overlapping partitions at
the stated boundaries: amount low/medium/high at 100 and 500 (lower bound
inclusive), profit loss/low_profit/high_profit at 0 and 50, and quantity
small/medium/large at 2 and 5 (upper bound inclusive). -/
theorem range_buckets_partition (a p : ℚ) (n : ℤ) :
    (getAmountRange a = "low" ↔ a < 100) ∧
    (getAmountRange a = "medium" ↔ 100 ≤ a ∧ a < 500) ∧
    (getAmountRange a = "high" ↔ 500 ≤ a) ∧
    (getProfitRange p = "loss" ↔ p < 0) ∧
    (getProfitRange p = "low_profit" ↔ 0 ≤ p ∧ p < 50) ∧
    (getProfitRange p = "high_profit" ↔ 50 ≤ p) ∧
    (getQuantityRange n = "small" ↔ n ≤ 2) ∧
    (getQuantityRange n = "medium" ↔ 2 < n ∧ n ≤ 5) ∧
    (getQuantityRange n = "large" ↔ 5 < n) := by
  unfold getAmountRange getProfitRange getQuantityRange
  refine ⟨?_, ?_, ?_, ?_, ?_, ?_, ?_, ?_, ?_⟩ <;>
    split_ifs with h1 h2 <;> simp_all <;> linarith

/-! ### C8 — prompt assembly structure -/

/-- Auxiliary: the context accumulation loop renders the 1-based enumeration
of the documents, each as a numbered line. -/
theorem contextTextLoop_eq (b : Bool) :
    ∀ (i : ℕ) (docs : List Doc),
      contextTextLoop b i docs =
        String.join ((docs.enumFrom i).map
          (fun pr => toString pr.1 ++ ". " ++ pickContent b pr.2 ++ "\n"))
  | _, [] => rfl
  | i, d :: ds => by
    unfold contextTextLoop
    rw [contextTextLoop_eq b (i + 1) ds]
    apply String.ext
    simp [String.join_eq, String.data_append]

/-- C8: for every query, hit list and intent flag, the prompt assembler
returns exactly the fixed system prompt followed by one user message built by
substituting the context block and the raw query into the fixed template; the
context block is the newline-separated 1-based enumeration of the hits, each
contributing its `content` under PERSONAL intent and its `business_content`
(falling back to `content`) under BUSINESS intent. -/
theorem create_rag_prompt_structure (q : String) (docs : List Doc)
    (isPersonal : Bool) :
    createRagPrompt q docs isPersonal =
      [⟨"system", eCommerceSystemPrompt⟩,
       ⟨"user", ragUserPrompt (contextText isPersonal docs) q⟩] ∧
    contextText isPersonal docs =
      String.join ((docs.enumFrom 1).map
        (fun pr => toString pr.1 ++ ". " ++ pickContent isPersonal pr.2 ++ "\n")) ∧
    (∀ d, pickContent true d = d.content.getD "") ∧
    (∀ d, pickContent false d = d.business_content.getD (d.content.getD "")) :=
  ⟨rfl, contextTextLoop_eq isPersonal 1 docs, fun _ => rfl, fun _ => rfl⟩

/-! ### C9 — response shape and the `context_detected` key -/

/-- C9: a no-results run (empty retrieved hit list) produces the canned
response with no `context_detected` key, empty sources and context; every
successful run with hits carries `context_detected` equal to `"PERSONAL"` or
`"BUSINESS"`.  All remaining response keys are present in both shapes by
construction of `QueryResponse`. -/
theorem response_shape_context_detected (o : Oracle) (llm : LlmOracle)
    (clock : ℕ → ℤ) (uq : String) (mr : Option ℕ) (f : Option String)
    (resp : QueryResponse) (h : queryFn o llm clock uq mr f = .ok resp) :
    (((smartSearch o uq (effectiveMaxResults mr) f).hits.getD []).isEmpty →
      resp.context_detected = none ∧ resp.answer = noResultsAnswer ∧
      resp.sources = [] ∧ resp.context = []) ∧
    (¬ ((smartSearch o uq (effectiveMaxResults mr) f).hits.getD []).isEmpty →
      resp.context_detected = some "PERSONAL" ∨
      resp.context_detected = some "BUSINESS") := by
  unfold queryFn at h
  dsimp only [] at h
  split at h
  · simp at h
  · next hits hhits =>
    rw [hhits]
    split at h
    · next hempty =>
      simp only [Except.ok.injEq] at h
      subst h
      simp [hempty]
    · next hempty =>
      split at h
      · simp at h
      · simp only [Except.ok.injEq] at h
        subst h
        refine ⟨fun hcontra => absurd hcontra (by simpa using hempty), fun _ => ?_⟩
        by_cases hp : detectPersonalContext uq <;> simp [hp]

/-- Witness for C9 on a concrete no-results run. -/
theorem response_shape_context_detected_witness :
    queryFn noHitsOracle okLlm zclock "xyzzy" none none = .ok c9Resp ∧
    ((((smartSearch noHitsOracle "xyzzy" (effectiveMaxResults none) none).hits.getD
        []).isEmpty →
      c9Resp.context_detected = none ∧ c9Resp.answer = noResultsAnswer ∧
      c9Resp.sources = [] ∧ c9Resp.context = []) ∧
     (¬ ((smartSearch noHitsOracle "xyzzy" (effectiveMaxResults none) none).hits.getD
        []).isEmpty →
      c9Resp.context_detected = some "PERSONAL" ∨
      c9Resp.context_detected = some "BUSINESS")) :=
  ⟨rfl, response_shape_context_detected noHitsOracle okLlm zclock "xyzzy" none none
    c9Resp rfl⟩

/-! ### C10 — a failed index deletion is never a fatal setup error -/

/-- C10: `delete_index` converts the failure of the underlying engine call
into `False` instead of raising, and `setup_index` — which discards that
return value — proceeds to `create_index` and the re-indexing steps
identically whether or not the deletion succeeded. -/
theorem delete_index_failure_nonfatal (env : SetupEnv) (hh : env.healthOk = true)
    (hd : env.deleteRes = .error ()) :
    deleteIndex env.deleteRes = false ∧
    "create_index" ∈ (setupIndex env).2 ∧
    setupIndex env = setupIndex { env with deleteRes := .ok () } ∧
    (env.createRes = .ok () → env.configureRes = .ok () →
      (∀ docs, env.loadRes = .ok docs → env.addRes = .ok () →
        "add_documents" ∈ (setupIndex env).2 ∧ (setupIndex env).1 = .ok true)) := by
  refine ⟨by rw [hd]; rfl, ?_, ?_, ?_⟩
  · unfold setupIndex
    rw [hh]
    simp only [Bool.not_true, if_false]
    rcases env.createRes with _ | _ <;>
      rcases env.configureRes with _ | _ <;>
        rcases env.loadRes with _ | _ <;>
          rcases env.addRes with _ | _ <;> simp
  · unfold setupIndex
    rfl
  · intro hc hcf docs hl ha
    unfold setupIndex
    rw [hh, hc, hcf, hl, ha]
    simp

/-- Witness for C10 on a run whose only failure is the index deletion. -/
theorem delete_index_failure_nonfatal_witness :
    setupEnvWit.healthOk = true ∧ setupEnvWit.deleteRes = .error () ∧
    (deleteIndex setupEnvWit.deleteRes = false ∧
     "create_index" ∈ (setupIndex setupEnvWit).2 ∧
     setupIndex setupEnvWit = setupIndex { setupEnvWit with deleteRes := .ok () } ∧
     (setupEnvWit.createRes = .ok () → setupEnvWit.configureRes = .ok () →
       (∀ docs, setupEnvWit.loadRes = .ok docs → setupEnvWit.addRes = .ok () →
         "add_documents" ∈ (setupIndex setupEnvWit).2 ∧
         (setupIndex setupEnvWit).1 = .ok true))) :=
  ⟨rfl, rfl, delete_index_failure_nonfatal setupEnvWit rfl rfl⟩
